import Mathlib

/-!
Verification development for the ATLAS host-telemetry daemon
(collector.py, api.py): a shallow embedding of the collection
orchestrator, snapshot cache, history store and the read API, together
with theorems about the documented invariants.

Strings are modelled as lists of characters (`Str`); dictionaries as
association lists in insertion order, matching Python dict semantics;
JSON values as the inductive type `Json` (numbers as rationals);
machine-level concerns (sockets, sqlite internals) as explicit state or
oracle outcomes, documented at each definition.
-/

/-- Strings of the model: lists of characters (all data here is ASCII). -/
abbrev Str := List Char

/-- First-some choice on options (Python `a or b` for lookups that
cannot be empty strings; empty-string falsiness is handled separately). -/
def optOr {α : Type} : Option α → Option α → Option α
  | some a, _ => some a
  | none, b => b

/-- Lexicographic byte comparison of two strings, as SQLite compares
TEXT values with the default BINARY collation (memcmp order; a strict
prefix sorts first). -/
def lexLtB : Str → Str → Bool
  | [], [] => false
  | [], _ :: _ => true
  | _ :: _, [] => false
  | a :: as, b :: bs => if a < b then true else if b < a then false else lexLtB as bs

/-- The ASCII digit character for `n < 10`. -/
def digitChar (n : Nat) : Char := Char.ofNat (48 + n)

/-- Two-digit zero-padded decimal rendering (`05`, `12`). -/
def pad2 (n : Nat) : Str := [digitChar (n / 10), digitChar (n % 10)]

/-- Four-digit zero-padded decimal rendering (`2026`). -/
def pad4 (n : Nat) : Str := pad2 (n / 100) ++ pad2 (n % 100)

/-- Six-digit zero-padded decimal rendering (microseconds). -/
def pad6 (n : Nat) : Str := pad2 (n / 10000) ++ pad2 (n / 100 % 100) ++ pad2 (n % 100)

/-- A UTC wall-clock instant, the shape shared by Python
`datetime.now(timezone.utc)` and SQLite `datetime(..)`. -/
structure DT where
  y : Nat
  mo : Nat
  d : Nat
  h : Nat
  mi : Nat
  s : Nat
  micro : Nat
deriving DecidableEq, Repr

/-- Field bounds of a well-formed UTC instant. -/
def validDT (t : DT) : Prop :=
  t.y < 10000 ∧ 1 ≤ t.mo ∧ t.mo ≤ 12 ∧ 1 ≤ t.d ∧ t.d ≤ 31 ∧
  t.h < 24 ∧ t.mi < 60 ∧ t.s < 60 ∧ t.micro < 1000000

instance (t : DT) : Decidable (validDT t) := by unfold validDT; infer_instance

/-- `YYYY-MM-DD` then a separator character then the given tail; the common
skeleton of both timestamp renderings below. -/
def stampD (sep : Char) (t : DT) (tail : Str) : Str :=
  pad4 t.y ++ '-' :: (pad2 t.mo ++ '-' :: (pad2 t.d ++ sep :: tail))

/-- `HH:MM:SS` rendering of the time of day. -/
def timeChars (t : DT) : Str := pad2 t.h ++ ':' :: (pad2 t.mi ++ ':' :: pad2 t.s)

/-- Python `datetime.now(timezone.utc).isoformat()`: `YYYY-MM-DDTHH:MM:SS`
with a `T` separator, fractional seconds when nonzero, and the `+00:00`
offset suffix. This is what the collector stores in `collected_at`. -/
def pyIso (t : DT) : Str :=
  stampD 'T' t (timeChars t ++ (if t.micro = 0 then [] else '.' :: pad6 t.micro) ++ "+00:00".toList)

/-- SQLite `datetime(...)` text: `YYYY-MM-DD HH:MM:SS` with a space
separator and no offset. This is what the purge cutoff renders to. -/
def sqliteDT (t : DT) : Str := stampD ' ' t (timeChars t)

/-- Calendar-date comparison of two instants (year, month, day lexicographic). -/
def dateLtB (a b : DT) : Bool :=
  if a.y < b.y then true else if b.y < a.y then false
  else if a.mo < b.mo then true else if b.mo < a.mo then false
  else decide (a.d < b.d)

/-- Days from civil 0001-03-01-based era to the given Gregorian date
(the days-from-civil algorithm of Howard Hinnant, specialised to `y ≥ 1`).
Used only to evaluate ages of concrete timestamps. -/
def daysFromCivil (y m d : Nat) : Nat :=
  let y1 := if m ≤ 2 then y - 1 else y
  let era := y1 / 400
  let yoe := y1 % 400
  let mp := (m + 9) % 12
  let doy := (153 * mp + 2) / 5 + d - 1
  let doe := yoe * 365 + yoe / 4 - yoe / 100 + doy
  era * 146097 + doe

/-- Seconds from the civil era to an instant (ignoring sub-second part). -/
def toSec (t : DT) : Nat :=
  daysFromCivil t.y t.mo t.d * 86400 + t.h * 3600 + t.mi * 60 + t.s

/-- JSON values; numbers are modelled as rationals. -/
inductive Json where
  | null : Json
  | bool : Bool → Json
  | num : ℚ → Json
  | str : Str → Json
  | arr : List Json → Json
  | obj : List (Str × Json) → Json

/-- Python dictionaries with JSON values: association lists in insertion
order with unique keys. -/
abbrev Dict := List (Str × Json)

/-- Key lookup in a dict (first match). -/
def jLookup : Dict → Str → Option Json
  | [], _ => none
  | (k, v) :: rest, key => if k = key then some v else jLookup rest key

/-- The keys of a dict, in insertion order (Python `for k in data`). -/
def keysOf (d : Dict) : List Str := d.map (fun kv => kv.1)

/-- Python truthiness of a JSON value (`if value:`): None, False, 0,
empty string, empty list and empty dict are falsy. -/
def jTruthy : Json → Bool
  | .null => false
  | .bool b => b
  | .num q => !(decide (q = 0))
  | .str s => !s.isEmpty
  | .arr xs => !xs.isEmpty
  | .obj kvs => !kvs.isEmpty

/-- Python `d[k] = v`: replace the value in place if the key exists
(keeping its position), otherwise append the pair. -/
def dictSet (d : Dict) (k : Str) (v : Json) : Dict :=
  if (jLookup d k).isSome then
    d.map (fun kv => (kv.1, if kv.1 = k then v else kv.2))
  else d ++ [(k, v)]

/-- Python `d.update(u)`: assign every pair of `u`, left to right. -/
def dictUpdate (d : Dict) (u : Dict) : Dict :=
  u.foldl (fun acc kv => dictSet acc kv.1 kv.2) d

/-- Conditionally added dict entry (`if cfg.get(flag): stats[key] = ...`). -/
def condItem (b : Bool) (k : Str) (v : Json) : Dict := if b then [(k, v)] else []

/-- `cfg.get(key, default)` followed by Python truthiness, the way
`collect_all` tests its enable flags. -/
def getFlag (cfg : Dict) (k : Str) (dflt : Bool) : Bool :=
  match jLookup cfg k with
  | some v => jTruthy v
  | none => dflt

/-- The outcome of one collector body against the ambient operating
system, as an oracle: `.ok payload` when the body runs to completion
(producing whatever section payload its psutil / subprocess calls
yield, including the documented non-error defaults such as
`note: No sensors detected`), `.error msg` when an exception escapes
the body to the outer `except Exception` handler of the collector. -/
structure SysEnv where
  cpu : Except Str Json
  ram : Except Str Json
  disk : Except Str Json
  network : Bool → Except Str Json
  temp : Except Str Json
  uptime : Except Str Json
  osinfo : Except Str Json
  hardware : Except Str Json
  processes : Except Str Json
  users : Except Str Json
  battery : Except Str Json
  gpu : Except Str Json

/-- The `error` payload built by the outer handler of every collector:
`return ⦃error: str(e)⦄`. -/
def errPayload (m : Str) : Json := Json.obj [("error".toList, Json.str m)]

/-- `try: body except Exception as e: return ⦃error: str(e)⦄` — the
shared outer shape of all twelve collectors in collector.py. -/
def runBody (o : Except Str Json) : Json :=
  match o with
  | .ok p => p
  | .error m => errPayload m

namespace Collector

/-- DEFAULT_CONFIG of collector.py. -/
def DEFAULT_CONFIG : Dict :=
  [("collect_cpu".toList, Json.bool true),
   ("collect_ram".toList, Json.bool true),
   ("collect_disk".toList, Json.bool true),
   ("collect_network".toList, Json.bool false),
   ("collect_temp".toList, Json.bool false),
   ("collect_uptime".toList, Json.bool false),
   ("collect_os".toList, Json.bool false),
   ("collect_hardware".toList, Json.bool false),
   ("collect_processes".toList, Json.bool false),
   ("collect_users".toList, Json.bool false),
   ("collect_battery".toList, Json.bool false),
   ("collect_gpu".toList, Json.bool false),
   ("net_speed_enabled".toList, Json.bool true),
   ("interval".toList, Json.num 30),
   ("history_enabled".toList, Json.bool false),
   ("history_keep_days".toList, Json.num 7),
   ("api_engine".toList, Json.str "http".toList),
   ("api_port".toList, Json.num 19890),
   ("api_key".toList, Json.str []),
   ("api_enabled".toList, Json.bool true)]

/-- The state of the config file as load_config observes it:
missing, present but unreadable or not valid JSON, or a parsed JSON
object (a Python dict, hence unique keys). -/
inductive ConfigFile where
  | missing : ConfigFile
  | invalid : ConfigFile
  | parsed : Dict → ConfigFile

/-- collector.py load_config: start from a copy of the defaults; if the
file exists, merge its parsed contents on top with `cfg.update(...)`;
on any exception print and keep the defaults. -/
def load_config (f : ConfigFile) : Dict :=
  match f with
  | .missing => DEFAULT_CONFIG
  | .invalid => DEFAULT_CONFIG
  | .parsed d => dictUpdate DEFAULT_CONFIG d

def collect_cpu (sys : SysEnv) : Json := runBody sys.cpu

def collect_ram (sys : SysEnv) : Json := runBody sys.ram

def collect_disk (sys : SysEnv) : Json := runBody sys.disk

def collect_network (sys : SysEnv) (speed : Bool) : Json := runBody (sys.network speed)

def collect_temperature (sys : SysEnv) : Json := runBody sys.temp

def collect_uptime (sys : SysEnv) : Json := runBody sys.uptime

def collect_os (sys : SysEnv) : Json := runBody sys.osinfo

def collect_hardware (sys : SysEnv) : Json := runBody sys.hardware

def collect_processes (sys : SysEnv) : Json := runBody sys.processes

def collect_users (sys : SysEnv) : Json := runBody sys.users

def collect_battery (sys : SysEnv) : Json := runBody sys.battery

def collect_gpu (sys : SysEnv) : Json := runBody sys.gpu

/-- The twelve metric sections, in the order collect_all assembles them. -/
inductive Sec where
  | cpu | ram | disk | network | temp | uptime | osinfo | hardware
  | processes | users | battery | gpu
deriving DecidableEq, Repr

/-- The snapshot key of a section. -/
def secKey : Sec → Str
  | .cpu => "cpu".toList
  | .ram => "ram".toList
  | .disk => "disk".toList
  | .network => "network".toList
  | .temp => "temperature".toList
  | .uptime => "uptime".toList
  | .osinfo => "os".toList
  | .hardware => "hardware".toList
  | .processes => "processes".toList
  | .users => "users".toList
  | .battery => "battery".toList
  | .gpu => "gpu".toList

/-- The configuration flag controlling a section. -/
def secFlag : Sec → Str
  | .cpu => "collect_cpu".toList
  | .ram => "collect_ram".toList
  | .disk => "collect_disk".toList
  | .network => "collect_network".toList
  | .temp => "collect_temp".toList
  | .uptime => "collect_uptime".toList
  | .osinfo => "collect_os".toList
  | .hardware => "collect_hardware".toList
  | .processes => "collect_processes".toList
  | .users => "collect_users".toList
  | .battery => "collect_battery".toList
  | .gpu => "collect_gpu".toList

/-- Default for a missing flag in `cfg.get(flag, default)`: CPU, RAM
and Disk default on, everything else off. -/
def secDefault : Sec → Bool
  | .cpu => true
  | .ram => true
  | .disk => true
  | _ => false

/-- Whether a section is enabled under a configuration. -/
def enabledSec (cfg : Dict) (s : Sec) : Bool := getFlag cfg (secFlag s) (secDefault s)

/-- The oracle outcome of the collector body of a section (network depends on
the net_speed_enabled sub-flag exactly as in collect_all). -/
def secOutcome (cfg : Dict) (sys : SysEnv) : Sec → Except Str Json
  | .cpu => sys.cpu
  | .ram => sys.ram
  | .disk => sys.disk
  | .network => sys.network (getFlag cfg "net_speed_enabled".toList true)
  | .temp => sys.temp
  | .uptime => sys.uptime
  | .osinfo => sys.osinfo
  | .hardware => sys.hardware
  | .processes => sys.processes
  | .users => sys.users
  | .battery => sys.battery
  | .gpu => sys.gpu

/-- collect_all of collector.py: the metadata entries, then one entry
per enabled collector, in source order. -/
def collect_all (cfg : Dict) (sys : SysEnv) (now : DT) (host : Str) : Dict :=
  [("atlas_version".toList, Json.str "2.1.0".toList),
   ("collected_at".toList, Json.str (pyIso now)),
   ("hostname".toList, Json.str host)]
  ++ condItem (getFlag cfg "collect_cpu".toList true) "cpu".toList (collect_cpu sys)
  ++ condItem (getFlag cfg "collect_ram".toList true) "ram".toList (collect_ram sys)
  ++ condItem (getFlag cfg "collect_disk".toList true) "disk".toList (collect_disk sys)
  ++ condItem (getFlag cfg "collect_network".toList false) "network".toList
      (collect_network sys (getFlag cfg "net_speed_enabled".toList true))
  ++ condItem (getFlag cfg "collect_temp".toList false) "temperature".toList (collect_temperature sys)
  ++ condItem (getFlag cfg "collect_uptime".toList false) "uptime".toList (collect_uptime sys)
  ++ condItem (getFlag cfg "collect_os".toList false) "os".toList (collect_os sys)
  ++ condItem (getFlag cfg "collect_hardware".toList false) "hardware".toList (collect_hardware sys)
  ++ condItem (getFlag cfg "collect_processes".toList false) "processes".toList (collect_processes sys)
  ++ condItem (getFlag cfg "collect_users".toList false) "users".toList (collect_users sys)
  ++ condItem (getFlag cfg "collect_battery".toList false) "battery".toList (collect_battery sys)
  ++ condItem (getFlag cfg "collect_gpu".toList false) "gpu".toList (collect_gpu sys)

end Collector

/-- Rendering of a rational (the model of a JSON number) in serialized
output; the exact numeral format of Python floats is abstracted, it
never matters to any property below. -/
def ratChars (q : ℚ) : Str :=
  (if q < 0 then ['-'] else []) ++ Nat.toDigits 10 q.num.natAbs ++
    (if q.den = 1 then [] else '/' :: Nat.toDigits 10 q.den)

/-- The double-quote character (codepoint 34). -/
def quoteChar : Char := Char.ofNat 34

/-- The backslash character (codepoint 92). -/
def backslashChar : Char := Char.ofNat 92

/-- Escaping of quote and backslash inside serialized strings. -/
def escapeChars (s : Str) : Str :=
  s.foldr (fun c acc =>
    if c = quoteChar then backslashChar :: quoteChar :: acc
    else if c = backslashChar then backslashChar :: backslashChar :: acc
    else c :: acc) []

mutual

/-- `json.dumps`: the complete serialized text of a JSON value (modulo
the pretty-printing whitespace of `indent=2`, which no property below
observes; what matters is that the text is a single complete rendering). -/
def dumpsJ : Json → Str
  | .null => "null".toList
  | .bool true => "true".toList
  | .bool false => "false".toList
  | .num q => ratChars q
  | .str s => quoteChar :: escapeChars s ++ [quoteChar]
  | .arr xs => '[' :: dumpsArr xs ++ [']']
  | .obj kvs => Char.ofNat 123 :: dumpsObj kvs ++ [Char.ofNat 125]

/-- Comma-separated renderings of array elements. -/
def dumpsArr : List Json → Str
  | [] => []
  | [x] => dumpsJ x
  | x :: y :: xs => dumpsJ x ++ ',' :: ' ' :: dumpsArr (y :: xs)

/-- Comma-separated `key: value` renderings of object members. -/
def dumpsObj : List (Str × Json) → Str
  | [] => []
  | [(k, v)] => quoteChar :: escapeChars k ++ quoteChar :: ':' :: ' ' :: dumpsJ v
  | (k, v) :: p :: xs =>
      (quoteChar :: escapeChars k ++ quoteChar :: ':' :: ' ' :: dumpsJ v) ++
        ',' :: ' ' :: dumpsObj (p :: xs)

end

namespace Collector

/-- The contents of the two file-system paths write_cache touches:
the canonical cache file and the temporary file; `none` means absent.
Readers (load_cache in api.py, the CLI) open only `cacheF`. -/
structure FState where
  cacheF : Option Str
  tmpF : Option Str
deriving DecidableEq

/-- CACHE_FILE of collector.py and api.py. -/
def CACHE_FILE : Str := "/opt/Atlas/cache/stats.json".toList

/-- The temporary path write_cache serializes to: `CACHE_FILE + ".tmp"`. -/
def cacheTmpPath : Str := CACHE_FILE ++ ".tmp".toList

/-- The directory part of a path (everything up to the last slash). -/
def dirOf (l : Str) : Str := (l.reverse.dropWhile (fun c => !(c = '/'))).reverse

/-- write_cache of collector.py as the sequence of file-system states a
concurrent reader can observe. `phases` are the successive partial
contents of the temporary file while `json.dump` streams into it;
`serOk` tells whether serialization ran to completion (an exception is
caught by the handler in write_cache and nothing more happens); `renameOk`
tells whether the final `os.replace` — an atomic rename, the single
step that changes the canonical path — succeeded. -/
def write_cache_trace (fs0 : FState) (snap : Json) (phases : List Str)
    (serOk renameOk : Bool) : List FState :=
  fs0 :: (phases.map (fun w => ⟨fs0.cacheF, some w⟩)) ++
    (if serOk then
      ⟨fs0.cacheF, some (dumpsJ snap)⟩ ::
        (if renameOk then [⟨some (dumpsJ snap), none⟩] else [])
     else [])

/-- One row of the `snapshots` table written by write_history.
`collected_at` is declared `TEXT NOT NULL`; the other columns are
nullable. `raw_json` holds the full serialized snapshot. -/
structure HRow where
  collected_at : Str
  hostname : Option Str
  cpu_percent : Option ℚ
  ram_percent : Option ℚ
  disk_percent : Option ℚ
  raw_json : Str
deriving DecidableEq

/-- `stats.get("collected_at")` as the TEXT value inserted into the NOT
NULL column (collect_all always stores an ISO string there; a missing
or non-string value would make the INSERT fail and the whole
write_history call fall into its exception handler — modelled below as
leaving the table unchanged). -/
def tsOfSnap (stats : Dict) : Option Str :=
  match jLookup stats "collected_at".toList with
  | some (Json.str s) => some s
  | _ => none

/-- `stats.get("hostname")` as a nullable TEXT value. -/
def hostOfSnap (stats : Dict) : Option Str :=
  match jLookup stats "hostname".toList with
  | some (Json.str s) => some s
  | _ => none

/-- `stats.get(sec, ⦃⦄).get("percent")`: the percent field of a section
payload when present and numeric, else NULL. -/
def pctOf (stats : Dict) (k : Str) : Option ℚ :=
  match jLookup stats k with
  | some (Json.obj o) =>
    (match jLookup o "percent".toList with
     | some (Json.num q) => some q
     | _ => none)
  | _ => none

/-- `parts = stats.get("disk", ⦃⦄).get("partitions", [⦃⦄])` followed by
`parts[0].get("percent") if parts else None`. -/
def diskPct (stats : Dict) : Option ℚ :=
  match jLookup stats "disk".toList with
  | some (Json.obj o) =>
    (match jLookup o "partitions".toList with
     | some (Json.arr (Json.obj p0 :: _)) =>
       (match jLookup p0 "percent".toList with
        | some (Json.num q) => some q
        | _ => none)
     | _ => none)
  | _ => none

/-- The row write_history INSERTs for a snapshot. -/
def newHRow (stats : Dict) (ts : Str) : HRow :=
  ⟨ts, hostOfSnap stats, pctOf stats "cpu".toList, pctOf stats "ram".toList,
    diskPct stats, dumpsJ (Json.obj stats)⟩

/-- write_history of collector.py: INSERT the new row, then
`DELETE FROM snapshots WHERE collected_at < datetime(now, -N days)`.
`cutoff` is the instant SQLite computes for `datetime(now,
-keep_days days)` — the current UTC time with the date moved back
`keep_days` days — rendered by SQLite in `YYYY-MM-DD HH:MM:SS` form and
compared against the stored TEXT with binary collation (`lexLtB`). -/
def write_history (rows : List HRow) (stats : Dict) (cutoff : DT) : List HRow :=
  match tsOfSnap stats with
  | none => rows
  | some ts =>
    (rows ++ [newHRow stats ts]).filter
      (fun r => !(lexLtB r.collected_at (sqliteDT cutoff)))

end Collector

/-- Association lookup in a string-valued map (request headers, parsed
query parameters). -/
def sLookup : List (Str × Str) → Str → Option Str
  | [], _ => none
  | (k, v) :: rest, key => if k = key then some v else sLookup rest key

/-- Python `a or b` where `a` is an optional string: an absent or empty
string falls through to the alternative. -/
def orS (o : Option Str) (alt : Str) : Str :=
  match o with
  | some s => if s.isEmpty then alt else s
  | none => alt

namespace Api

/-- DEFAULT_CONFIG of api.py. -/
def DEFAULT_CONFIG : Dict :=
  [("api_engine".toList, Json.str "http".toList),
   ("api_port".toList, Json.num 19890),
   ("api_key".toList, Json.str []),
   ("api_enabled".toList, Json.bool true)]

/-- api.py load_config: identical logic to that of the collector, over the
smaller API default table (a copy of the defaults, then
`cfg.update(json.load(f))`, any exception silently keeping defaults). -/
def load_config (f : Collector.ConfigFile) : Dict :=
  match f with
  | .missing => DEFAULT_CONFIG
  | .invalid => DEFAULT_CONFIG
  | .parsed d => dictUpdate DEFAULT_CONFIG d

/-- Ambient state one API request observes: whether the cache file
exists on disk (`os.path.exists`), the parsed cache contents — `none`
folds together a missing file and unparseable JSON, exactly the two
cases load_cache maps to None; the contents are a JSON object because
write_cache only ever stores one — the current wall-clock string
rendered by `datetime.now(timezone.utc).isoformat()`, whether the
history database file exists, and the outcome of the history SELECT
(`.error` models a sqlite3 exception from a corrupt or schemaless
database). -/
structure Env where
  cacheExists : Bool
  cache : Option Dict
  nowStr : Str
  dbExists : Bool
  dbRows : Except Str (List Collector.HRow)

/-- check_key of api.py: with no (falsy) configured key every caller is
authorized; otherwise the presented string must equal the configured
value. -/
def check_key (provided : Str) (cfg : Dict) : Bool :=
  let kv := (jLookup cfg "api_key".toList).getD (Json.str [])
  if jTruthy kv = false then true
  else
    match kv with
    | Json.str k => decide (provided = k)
    | _ => false

/-- get_key_from_request of api.py: the `X-ATLAS-Key` header, else the
`x-atlas-key` header, else the `key` query parameter, else empty. -/
def get_key_from_request (headers params : List (Str × Str)) : Str :=
  orS (sLookup headers "X-ATLAS-Key".toList)
    (orS (sLookup headers "x-atlas-key".toList)
      ((sLookup params "key".toList).getD []))

def notFoundBody : Json := Json.obj [("error".toList, Json.str "Not found".toList)]

def unauthorizedResp : Nat × Json :=
  (401, Json.obj [("error".toList,
    Json.str "Unauthorized — provide X-ATLAS-Key header".toList)])

def cacheMissingResp : Nat × Json :=
  (503, Json.obj [("error".toList,
    Json.str "Cache not found — is collector running?".toList)])

/-- The three snapshot metadata keys excluded from the `available` list. -/
def isMetaKey (k : Str) : Bool :=
  k = "atlas_version".toList || k = "collected_at".toList || k = "hostname".toList

/-- make_stats_response of api.py. -/
def make_stats_response (env : Env) (sct : Option Str) : Nat × Json :=
  match env.cache with
  | none => cacheMissingResp
  | some data =>
    match sct with
    | none => (200, Json.obj data)
    | some s =>
      let available := (keysOf data).filter (fun k => !(isMetaKey k))
      if (jLookup data s).isSome = false then
        (404, Json.obj [("error".toList,
            Json.str ("Section \x27".toList ++ s ++ "\x27 not found".toList)),
          ("available".toList, Json.arr (available.map Json.str))])
      else
        (200, Json.obj [("section".toList, Json.str s),
          ("hostname".toList, (jLookup data "hostname".toList).getD Json.null),
          ("collected_at".toList, (jLookup data "collected_at".toList).getD Json.null),
          ("data".toList, (jLookup data s).getD Json.null)])

def isWs (c : Char) : Bool := c = ' ' || c = '\t' || c = '\n' || c = '\r'

def isDigitC (c : Char) : Bool := decide (48 ≤ c.toNat) && decide (c.toNat ≤ 57)

def digitsVal (l : Str) : Nat := l.foldl (fun a c => a * 10 + (c.toNat - 48)) 0

def trimWs (l : Str) : Str := ((l.dropWhile isWs).reverse.dropWhile isWs).reverse

/-- The digits of an integer literal, or the ValueError message text. -/
def intParseCore (ds : Str) : Except Str Nat :=
  if !ds.isEmpty && ds.all isDigitC then .ok (digitsVal ds)
  else .error "invalid literal for int() with base 10".toList

/-- Python `int(s)` on a string: optional surrounding whitespace, an
optional sign, then decimal digits; anything else raises ValueError. -/
def parseIntPy (s : Str) : Except Str Int :=
  match trimWs s with
  | '+' :: ds => (intParseCore ds).map (fun n => (n : Int))
  | '-' :: ds => (intParseCore ds).map (fun n => -(n : Int))
  | ds => (intParseCore ds).map (fun n => (n : Int))

/-- The `limit` argument as make_history_response receives it: the raw
query-parameter string when the caller supplied one, else the Python
int default 100. -/
inductive LimitV where
  | intV : Int → LimitV
  | strV : Str → LimitV

/-- `int(limit)`: the identity on an int, Python int() on a string. -/
def parseLimit : LimitV → Except Str Int
  | .intV n => .ok n
  | .strV s => parseIntPy s

/-- Insertion into a list sorted by `collected_at` descending. -/
def insertDescBy (r : Collector.HRow) : List Collector.HRow → List Collector.HRow
  | [] => [r]
  | x :: xs =>
    if lexLtB r.collected_at x.collected_at then x :: insertDescBy r xs
    else r :: x :: xs

/-- `ORDER BY collected_at DESC` over the stored rows (binary TEXT
collation; the order among equal keys is irrelevant below). -/
def sortDesc : List Collector.HRow → List Collector.HRow
  | [] => []
  | x :: xs => insertDescBy x (sortDesc xs)

/-- SQLite `LIMIT ?` semantics: a non-negative limit caps the row
count; a **negative** limit means no upper bound at all ("If the LIMIT
expression evaluates to a negative value, then there is no upper bound
on the number of rows returned", SQLite language reference). -/
def sqlLimit (n : Int) (rows : List Collector.HRow) : List Collector.HRow :=
  if n < 0 then rows else rows.take n.toNat

/-- One selected row as the JSON object `dict(r)` of the five selected
columns. -/
def rowJson (r : Collector.HRow) : Json :=
  Json.obj [("collected_at".toList, Json.str r.collected_at),
    ("hostname".toList, (r.hostname.map Json.str).getD Json.null),
    ("cpu_percent".toList, (r.cpu_percent.map Json.num).getD Json.null),
    ("ram_percent".toList, (r.ram_percent.map Json.num).getD Json.null),
    ("disk_percent".toList, (r.disk_percent.map Json.num).getD Json.null)]

/-- make_history_response of api.py: absent database file means 404;
then inside the catch-all, `limit = min(int(limit), 1000)` (a parse
failure lands in the 500 handler), the SELECT newest-first with LIMIT,
and the 200 body; a store exception also lands in the 500 handler. -/
def make_history_response (env : Env) (limit : LimitV) : Nat × Json :=
  if env.dbExists = false then
    (404, Json.obj [("error".toList,
      Json.str "History not enabled or no data yet".toList)])
  else
    match parseLimit limit with
    | .error e => (500, Json.obj [("error".toList, Json.str e)])
    | .ok n0 =>
      let n := min n0 1000
      match env.dbRows with
      | .error e => (500, Json.obj [("error".toList, Json.str e)])
      | .ok rows =>
        let sel := sqlLimit n (sortDesc rows)
        (200, Json.obj [("count".toList, Json.num (sel.length : ℚ)),
          ("limit".toList, Json.num (n : ℚ)),
          ("snapshots".toList, Json.arr (sel.map rowJson))])

/-- make_ping_response of api.py: always 200; reads only the clock and
the existence bit of the cache file, never its contents. -/
def make_ping_response (env : Env) : Nat × Json :=
  (200, Json.obj [("status".toList, Json.str "ok".toList),
    ("service".toList, Json.str "ATLAS".toList),
    ("version".toList, Json.str "2.1.0".toList),
    ("time".toList, Json.str env.nowStr),
    ("cache".toList, Json.bool env.cacheExists)])

/-- ASCII uppercase letter test. -/
def isUpperC (c : Char) : Bool := decide (65 ≤ c.toNat) && decide (c.toNat ≤ 90)

/-- ASCII lowercase letter test. -/
def isLowerC (c : Char) : Bool := decide (97 ≤ c.toNat) && decide (c.toNat ≤ 122)

/-- ASCII letter test (the cased characters of header-name tokens). -/
def isAlphaC (c : Char) : Bool := isUpperC c || isLowerC c

/-- ASCII lower-casing of one character. -/
def lowerChar (c : Char) : Char := if isUpperC c then Char.ofNat (c.toNat + 32) else c

/-- ASCII upper-casing of one character. -/
def upperChar (c : Char) : Char := if isLowerC c then Char.ofNat (c.toNat - 32) else c

/-- One character of Python `str.title()`: a letter is upper-cased at a
word start (previous character not a letter) and lower-cased otherwise;
non-letters pass through. -/
def titleStep (prevAlpha : Bool) (c : Char) : Char :=
  if isAlphaC c then (if prevAlpha then lowerChar c else upperChar c) else c

/-- `str.title()` over a character list, tracking whether the previous
character was a letter. -/
def titleChars : Bool → Str → Str
  | _, [] => []
  | prev, c :: cs => titleStep prev c :: titleChars (isAlphaC c) cs

/-- Python `s.title()` (restricted to ASCII, which covers header-name
tokens). -/
def pyTitle (s : Str) : Str := titleChars false s

/-- The header name the flask engine sees for a client-sent name: WSGI
stores the header as `HTTP_` + upper-cased name with dashes turned to
underscores, and Werkzeug EnvironHeaders yields
`key[5:].replace("_", "-").title()` — net effect on the original name:
underscores become dashes, then `str.title()` re-cases every word.
`X-ATLAS-Key` becomes `X-Atlas-Key`. -/
def flaskHeaderName (name : Str) : Str :=
  pyTitle (name.map (fun c => if c = '_' then '-' else c))

/-- `dict(request.headers)` in the flask engine: the client header map
with every name rebuilt by Werkzeug title-casing. -/
def flaskHeaders (headers : List (Str × Str)) : List (Str × Str) :=
  headers.map (fun kv => (flaskHeaderName kv.1, kv.2))

/-- The first-value query map the http engine builds:
`⦃k: v[0] for k, v in parse_qs(query).items()⦄`, where parse_qs by
default *drops* blank values (`keep_blank_values=False`), so pairs with
an empty value never appear. -/
def httpParams (params : List (Str × Str)) : List (Str × Str) :=
  params.filter (fun kv => !kv.2.isEmpty)

/-- One GET request, as decoded from the wire: the URL path, the query
key/value pairs in order (possibly with blank values, which the two
engines treat differently: parse_qs in the http engine drops them,
Werkzeug request.args keeps them), and the header map with the names
exactly as the client sent them (the http engine reads
`dict(self.headers)`, which preserves that casing; the flask engine
reads `dict(request.headers)`, which title-cases it — see
`flaskHeaders`). -/
structure Req where
  path : Str
  params : List (Str × Str)
  headers : List (Str × Str)

/-- Python `path.rstrip("/")`: drop every trailing slash. -/
def rstripSlash (l : Str) : Str := (l.reverse.dropWhile (fun c => c = '/')).reverse

def listStartsWith : Str → Str → Bool
  | [], _ => true
  | _ :: _, [] => false
  | a :: as, b :: bs => a = b && listStartsWith as bs

/-- `params.get("limit", 100)`. -/
def limitOf (params : List (Str × Str)) : LimitV :=
  match sLookup params "limit".toList with
  | some s => .strV s
  | none => .intV 100

/-- Handler.do_GET of the "http" engine, per request: strip trailing
slashes, answer ping before any auth, then reject a bad key before any
route matching, then dispatch on the path (exact `/api/stats` first,
then the `/api/stats/` prefix with the remainder as section name, then
`/api/history`), else 404. It reads the headers as sent
(`dict(self.headers)`) and the parse_qs first-value map with blank
values dropped (`httpParams`). -/
def httpDoGet (cfg : Dict) (env : Env) (req : Req) : Nat × Json :=
  let path := rstripSlash req.path
  let key := get_key_from_request req.headers (httpParams req.params)
  if path = "/api/ping".toList then make_ping_response env
  else if check_key key cfg = false then unauthorizedResp
  else if path = "/api/stats".toList then make_stats_response env none
  else if listStartsWith "/api/stats/".toList path then
    make_stats_response env (some (path.drop 11))
  else if path = "/api/history".toList then
    make_history_response env (limitOf (httpParams req.params))
  else (404, notFoundBody)

/-- Strip an exact prefix from a string, or fail. -/
def stripPre : Str → Str → Option Str
  | [], l => some l
  | _ :: _, [] => none
  | a :: as, b :: bs => if a = b then stripPre as bs else none

def noSlash (s : Str) : Bool := s.all (fun c => !(c = '/'))

/-- Werkzeug route matching of `/api/stats/<string:section>`: the
`string` converter takes one or more characters not containing a
slash. -/
def secMatch (p : Str) : Option Str :=
  match stripPre "/api/stats/".toList p with
  | some s => if !s.isEmpty && noSlash s then some s else none
  | none => none

/-- The "flask" engine, per request: Flask first matches the path
against the registered routes — `/api/ping`, `/api/stats`,
`/api/stats/<string:section>`, `/api/history`, all strict about
trailing slashes — answering 404 for an unmatched path; inside a
matched route (except ping) a failed auth aborts with 401, whose error
handler returns the same body as the 401 of the http engine. Its
`auth()` calls get_key_from_request on `dict(request.headers)` — the
Werkzeug title-cased map (`flaskHeaders`), whose names the two
exact-case lookups can never match — and on `request.args`, which
keeps blank query values that parse_qs would drop (so `?limit=` here
reaches `int("")`). -/
def flaskHandle (cfg : Dict) (env : Env) (req : Req) : Nat × Json :=
  let auth := check_key (get_key_from_request (flaskHeaders req.headers) req.params) cfg
  if req.path = "/api/ping".toList then make_ping_response env
  else if req.path = "/api/stats".toList then
    (if auth then make_stats_response env none else unauthorizedResp)
  else if req.path = "/api/history".toList then
    (if auth then make_history_response env (limitOf req.params) else unauthorizedResp)
  else
    match secMatch req.path with
    | some s => if auth then make_stats_response env (some s) else unauthorizedResp
    | none => (404, notFoundBody)

end Api

theorem jLookup_append (a b : Dict) (k : Str) :
    jLookup (a ++ b) k = optOr (jLookup a k) (jLookup b k) := by
  induction a with
  | nil => simp [jLookup, optOr]
  | cons hd tl ih =>
    obtain ⟨k0, v0⟩ := hd
    by_cases h : k0 = k
    · simp [jLookup, h, optOr]
    · simp [jLookup, h, ih]

theorem jLookup_eq_none_of_not_mem_keys (d : Dict) (k : Str) (h : k ∉ keysOf d) :
    jLookup d k = none := by
  induction d with
  | nil => rfl
  | cons hd tl ih =>
    obtain ⟨k0, v0⟩ := hd
    rw [keysOf, List.map_cons, List.mem_cons, not_or] at h
    have h1 : ¬(k0 = k) := fun hh => h.1 hh.symm
    simp only [jLookup, h1, if_false]
    exact ih h.2

theorem jLookup_map_set (tl : Dict) (k : Str) (v : Json) :
    jLookup (tl.map (fun kv => (kv.1, if kv.1 = k then v else kv.2))) k =
      (jLookup tl k).map (fun _ => v) := by
  induction tl with
  | nil => simp [jLookup]
  | cons hd rest ih =>
    obtain ⟨k0, v0⟩ := hd
    by_cases h : k0 = k
    · subst h; simp [jLookup]
    · simp [jLookup, h, ih]

theorem jLookup_map_set_other (tl : Dict) (k k1 : Str) (v : Json) (h : k1 ≠ k) :
    jLookup (tl.map (fun kv => (kv.1, if kv.1 = k then v else kv.2))) k1 =
      jLookup tl k1 := by
  induction tl with
  | nil => simp
  | cons hd rest ih =>
    obtain ⟨k0, v0⟩ := hd
    by_cases h0 : k0 = k1
    · subst h0
      have h1 : ¬(k0 = k) := fun hh => h (hh ▸ rfl)
      simp [jLookup, h1]
    · simp [jLookup, h0, ih]

theorem dictSet_lookup_self (d : Dict) (k : Str) (v : Json) :
    jLookup (dictSet d k v) k = some v := by
  unfold dictSet
  rcases hl : jLookup d k with _ | w
  · simp only [hl, Option.isSome_none, Bool.false_eq_true, if_false]
    rw [jLookup_append, hl]
    simp [jLookup, optOr]
  · simp only [hl, Option.isSome_some, if_true]
    rw [jLookup_map_set, hl]
    rfl

theorem dictSet_lookup_other (d : Dict) (k k1 : Str) (v : Json) (h : k1 ≠ k) :
    jLookup (dictSet d k v) k1 = jLookup d k1 := by
  unfold dictSet
  rcases hl : jLookup d k with _ | w
  · simp only [hl, Option.isSome_none, Bool.false_eq_true, if_false]
    rw [jLookup_append]
    have h1 : ¬(k = k1) := fun hh => h hh.symm
    simp only [jLookup, h1, if_false]
    cases jLookup d k1 <;> rfl
  · simp only [hl, Option.isSome_some, if_true]
    exact jLookup_map_set_other d k k1 v h


theorem dictUpdate_lookup (d u : Dict) (k : Str) (hu : (keysOf u).Nodup) :
    jLookup (dictUpdate d u) k = optOr (jLookup u k) (jLookup d k) := by
  induction u generalizing d with
  | nil => simp [dictUpdate, jLookup, optOr]
  | cons hd tl ih =>
    obtain ⟨k0, v0⟩ := hd
    rw [keysOf, List.map_cons, List.nodup_cons] at hu
    have step : dictUpdate d ((k0, v0) :: tl) = dictUpdate (dictSet d k0 v0) tl := rfl
    rw [step, ih (dictSet d k0 v0) hu.2]
    by_cases h : k0 = k
    · subst h
      rw [jLookup_eq_none_of_not_mem_keys tl k0 hu.1]
      simp [jLookup, optOr, dictSet_lookup_self]
    · rw [dictSet_lookup_other d k0 k v0 (fun hh => h hh.symm)]
      simp [jLookup, h, optOr]

theorem lexLtB_cons (a b : Char) (as bs : Str) :
    lexLtB (a :: as) (b :: bs) =
      if a < b then true else if b < a then false else lexLtB as bs := rfl

theorem lexLtB_cons_same (c : Char) (x y : Str) :
    lexLtB (c :: x) (c :: y) = lexLtB x y := by
  rw [lexLtB_cons, if_neg (lt_irrefl c), if_neg (lt_irrefl c)]

/-- ASCII digit characters compare exactly as their digit values. -/
theorem digitChar_lt_iff : ∀ x < 10, ∀ y < 10, (digitChar x < digitChar y ↔ x < y) := by
  decide

theorem lexLtB_pad2 (a b : Nat) (ha : a < 100) (hb : b < 100) (r1 r2 : Str) :
    lexLtB (pad2 a ++ r1) (pad2 b ++ r2) =
      if a < b then true else if b < a then false else lexLtB r1 r2 := by
  have hd1 : a / 10 < 10 := by omega
  have hd2 : b / 10 < 10 := by omega
  have hm1 : a % 10 < 10 := by omega
  have hm2 : b % 10 < 10 := by omega
  show lexLtB (digitChar (a / 10) :: digitChar (a % 10) :: r1)
      (digitChar (b / 10) :: digitChar (b % 10) :: r2) = _
  rw [lexLtB_cons]
  by_cases h1 : digitChar (a / 10) < digitChar (b / 10)
  · have hlt : a / 10 < b / 10 := (digitChar_lt_iff _ hd1 _ hd2).mp h1
    rw [if_pos h1, if_pos (show a < b by omega)]
  · have hn1 : ¬(a / 10 < b / 10) := fun hh => h1 ((digitChar_lt_iff _ hd1 _ hd2).mpr hh)
    rw [if_neg h1]
    by_cases h2 : digitChar (b / 10) < digitChar (a / 10)
    · have hlt : b / 10 < a / 10 := (digitChar_lt_iff _ hd2 _ hd1).mp h2
      rw [if_pos h2, if_neg (show ¬(a < b) by omega), if_pos (show b < a by omega)]
    · have hn2 : ¬(b / 10 < a / 10) := fun hh => h2 ((digitChar_lt_iff _ hd2 _ hd1).mpr hh)
      rw [if_neg h2, lexLtB_cons]
      by_cases h3 : digitChar (a % 10) < digitChar (b % 10)
      · have hlt : a % 10 < b % 10 := (digitChar_lt_iff _ hm1 _ hm2).mp h3
        rw [if_pos h3, if_pos (show a < b by omega)]
      · have hn3 : ¬(a % 10 < b % 10) := fun hh => h3 ((digitChar_lt_iff _ hm1 _ hm2).mpr hh)
        rw [if_neg h3]
        by_cases h4 : digitChar (b % 10) < digitChar (a % 10)
        · have hlt : b % 10 < a % 10 := (digitChar_lt_iff _ hm2 _ hm1).mp h4
          rw [if_pos h4, if_neg (show ¬(a < b) by omega), if_pos (show b < a by omega)]
        · have hn4 : ¬(b % 10 < a % 10) := fun hh => h4 ((digitChar_lt_iff _ hm2 _ hm1).mpr hh)
          rw [if_neg h4, if_neg (show ¬(a < b) by omega), if_neg (show ¬(b < a) by omega)]

theorem lexLtB_pad4 (a b : Nat) (ha : a < 10000) (hb : b < 10000) (r1 r2 : Str) :
    lexLtB (pad4 a ++ r1) (pad4 b ++ r2) =
      if a < b then true else if b < a then false else lexLtB r1 r2 := by
  unfold pad4
  rw [List.append_assoc, List.append_assoc,
    lexLtB_pad2 _ _ (by omega) (by omega)]
  by_cases h1 : a / 100 < b / 100
  · rw [if_pos h1, if_pos (show a < b by omega)]
  · rw [if_neg h1]
    by_cases h2 : b / 100 < a / 100
    · rw [if_pos h2, if_neg (show ¬(a < b) by omega), if_pos (show b < a by omega)]
    · rw [if_neg h2, lexLtB_pad2 _ _ (by omega) (by omega)]
      by_cases h3 : a % 100 < b % 100
      · rw [if_pos h3, if_pos (show a < b by omega)]
      · rw [if_neg h3]
        by_cases h4 : b % 100 < a % 100
        · rw [if_pos h4, if_neg (show ¬(a < b) by omega), if_pos (show b < a by omega)]
        · rw [if_neg h4, if_neg (show ¬(a < b) by omega), if_neg (show ¬(b < a) by omega)]

/-- The heart of the retention analysis: a stored Python ISO timestamp
(`T` separator) compares below a SQLite `datetime()` string (space
separator) exactly when its calendar date is strictly earlier, because
on equal dates the `T` (0x54) always compares above the space (0x20),
regardless of the time of day on either side. -/
theorem lexLtB_stamp (r c : DT) (hr : validDT r) (hc : validDT c) (t1 t2 : Str) :
    lexLtB (stampD 'T' r t1) (stampD ' ' c t2) = dateLtB r c := by
  obtain ⟨hry, hrm1, hrm2, hrd1, hrd2, -, -, -, -⟩ := hr
  obtain ⟨hcy, hcm1, hcm2, hcd1, hcd2, -, -, -, -⟩ := hc
  unfold stampD dateLtB
  rw [lexLtB_pad4 _ _ hry hcy]
  by_cases h1 : r.y < c.y
  · rw [if_pos h1, if_pos h1]
  · rw [if_neg h1, if_neg h1]
    by_cases h2 : c.y < r.y
    · rw [if_pos h2, if_pos h2]
    · rw [if_neg h2, if_neg h2, lexLtB_cons_same,
        lexLtB_pad2 _ _ (by omega) (by omega)]
      by_cases h3 : r.mo < c.mo
      · rw [if_pos h3, if_pos h3]
      · rw [if_neg h3, if_neg h3]
        by_cases h4 : c.mo < r.mo
        · rw [if_pos h4, if_pos h4]
        · rw [if_neg h4, if_neg h4, lexLtB_cons_same,
            lexLtB_pad2 _ _ (by omega) (by omega)]
          by_cases h5 : r.d < c.d
          · rw [if_pos h5]
            simp [h5]
          · rw [if_neg h5]
            by_cases h6 : c.d < r.d
            · rw [if_pos h6]
              simp [h5]
            · rw [if_neg h6, lexLtB_cons,
                if_neg (show ¬('T' < ' ') by decide), if_pos (show ' ' < 'T' by decide)]
              simp [h5]

theorem jLookup_condItem (b : Bool) (k key : Str) (v : Json) :
    jLookup (condItem b k v) key =
      if b then (if k = key then some v else none) else none := by
  cases b <;> simp [condItem, jLookup]

theorem optOr_none_right {α : Type} (o : Option α) : optOr o none = o := by
  cases o <;> rfl

theorem optOr_none_left {α : Type} (o : Option α) : optOr none o = o := rfl

theorem optOr_some {α : Type} (a : α) (o : Option α) : optOr (some a) o = some a := rfl

set_option maxHeartbeats 2000000 in
/-- Snapshot section lookup: `collect_all` contains exactly the enabled
sections, each with the payload its own collector produced. -/
theorem collect_all_lookup (cfg : Dict) (sys : SysEnv) (now : DT) (host : Str) (s : Collector.Sec) :
    jLookup (Collector.collect_all cfg sys now host) (Collector.secKey s) =
      if Collector.enabledSec cfg s then some (runBody (Collector.secOutcome cfg sys s)) else none := by
  cases s <;>
    simp +decide [Collector.collect_all, Collector.secKey, Collector.enabledSec,
      Collector.secFlag, Collector.secDefault, Collector.secOutcome,
      Collector.collect_cpu, Collector.collect_ram, Collector.collect_disk,
      Collector.collect_network, Collector.collect_temperature, Collector.collect_uptime,
      Collector.collect_os, Collector.collect_hardware, Collector.collect_processes,
      Collector.collect_users, Collector.collect_battery, Collector.collect_gpu,
      jLookup_append, jLookup_condItem, jLookup, optOr_none_left, optOr_some,
      optOr_none_right]

theorem listStartsWith_append (p s : Str) : Api.listStartsWith p (p ++ s) = true := by
  induction p with
  | nil => rfl
  | cons a as ih => simp [Api.listStartsWith, ih]

theorem stripPre_append (p s : Str) : Api.stripPre p (p ++ s) = some s := by
  induction p with
  | nil => rfl
  | cons a as ih => simp [Api.stripPre, ih]

theorem rstripSlash_append (p s : Str) (hne : s ≠ []) (hns : Api.noSlash s = true) :
    Api.rstripSlash (p ++ s) = p ++ s := by
  unfold Api.rstripSlash
  rcases hrev : s.reverse with _ | ⟨c, t⟩
  · exact absurd (by simpa using congrArg List.reverse hrev) hne
  · have hc : c ∈ s := by
      have h1 : c ∈ s.reverse := by rw [hrev]; exact List.mem_cons_self _ _
      simpa using h1
    have hcs : ¬(c = '/') := by
      have h2 := List.all_eq_true.mp hns c hc
      simpa using h2
    rw [List.reverse_append, hrev, List.cons_append, List.dropWhile_cons]
    rw [if_neg (by simpa using hcs)]
    rw [← List.cons_append, ← hrev, ← List.reverse_append, List.reverse_reverse]

theorem make_ping_status (env : Api.Env) : (Api.make_ping_response env).1 = 200 := rfl

theorem make_stats_status (env : Api.Env) (sct : Option Str) :
    (Api.make_stats_response env sct).1 = 200 ∨ (Api.make_stats_response env sct).1 = 404 ∨
      (Api.make_stats_response env sct).1 = 503 := by
  unfold Api.make_stats_response
  rcases env.cache with _ | data
  · simp [Api.cacheMissingResp]
  · rcases sct with _ | s
    · simp
    · by_cases h : (jLookup data s).isSome = false <;> simp [h]

theorem make_history_status (env : Api.Env) (l : Api.LimitV) :
    (Api.make_history_response env l).1 = 200 ∨ (Api.make_history_response env l).1 = 404 ∨
      (Api.make_history_response env l).1 = 500 := by
  unfold Api.make_history_response
  by_cases hd : env.dbExists = false
  · simp [hd]
  · rcases hp : Api.parseLimit l with e | n
    · simp [hd, hp]
    · rcases hr : env.dbRows with e | rows <;> simp [hd, hp, hr]

/-- With a falsy configured key, check_key authorizes everything. -/
theorem check_key_empty (cfg : Dict)
    (h : (jLookup cfg "api_key".toList).getD (Json.str []) = Json.str []) :
    ∀ p, Api.check_key p cfg = true := by
  intro p
  unfold Api.check_key
  rw [h]
  rfl

/-- With a nonempty configured string key, check_key is equality with it. -/
theorem check_key_configured (cfg : Dict) (k : Str)
    (h1 : jLookup cfg "api_key".toList = some (Json.str k)) (h2 : k ≠ []) :
    ∀ p, Api.check_key p cfg = decide (p = k) := by
  intro p
  unfold Api.check_key
  rw [h1]
  have ht : jTruthy (Json.str k) = true := by
    simp [jTruthy, List.isEmpty_iff, h2]
  simp [Option.getD, ht]

theorem insertDescBy_length (r : Collector.HRow) (l : List Collector.HRow) :
    (Api.insertDescBy r l).length = l.length + 1 := by
  induction l with
  | nil => rfl
  | cons x xs ih =>
    unfold Api.insertDescBy
    by_cases h : lexLtB r.collected_at x.collected_at <;> simp [h, ih]

theorem sortDesc_length (l : List Collector.HRow) : (Api.sortDesc l).length = l.length := by
  induction l with
  | nil => rfl
  | cons x xs ih => simp [Api.sortDesc, insertDescBy_length, ih]

/-- C1 (section isolation): for every configuration and enabled
collector X, if the body of X raises internally during a cycle, the
assembled snapshot maps X to exactly the error payload of the raised
message, and every other enabled collector still contributes its own
payload — the cycle always assembles every enabled section. -/
theorem c1_section_isolation (cfg : Dict) (sys : SysEnv) (now : DT) (host : Str)
    (X : Collector.Sec) (m : Str)
    (hen : Collector.enabledSec cfg X = true)
    (hfail : Collector.secOutcome cfg sys X = .error m) :
    jLookup (Collector.collect_all cfg sys now host) (Collector.secKey X) =
      some (errPayload m) ∧
    ∀ Y : Collector.Sec, Y ≠ X → Collector.enabledSec cfg Y = true →
      jLookup (Collector.collect_all cfg sys now host) (Collector.secKey Y) =
        some (runBody (Collector.secOutcome cfg sys Y)) := by
  constructor
  · rw [collect_all_lookup, if_pos hen, hfail]
    rfl
  · intro Y _ henY
    rw [collect_all_lookup, if_pos henY]

/-- Witness for C1: default configuration, CPU collector raising with
message `boom`; the snapshot carries the error payload for cpu and the
ordinary payload for ram. -/
theorem c1_section_isolation_witness :
    jLookup (Collector.collect_all []
        ⟨.error "boom".toList, .ok (Json.obj []), .ok (Json.obj []),
          fun _ => .ok (Json.obj []), .ok (Json.obj []), .ok (Json.obj []),
          .ok (Json.obj []), .ok (Json.obj []), .ok (Json.obj []),
          .ok (Json.obj []), .ok (Json.obj []), .ok (Json.obj [])⟩
        ⟨2026, 10, 12, 0, 0, 0, 0⟩ "h".toList) (Collector.secKey .cpu) =
      some (errPayload "boom".toList) ∧
    jLookup (Collector.collect_all []
        ⟨.error "boom".toList, .ok (Json.obj []), .ok (Json.obj []),
          fun _ => .ok (Json.obj []), .ok (Json.obj []), .ok (Json.obj []),
          .ok (Json.obj []), .ok (Json.obj []), .ok (Json.obj []),
          .ok (Json.obj []), .ok (Json.obj []), .ok (Json.obj [])⟩
        ⟨2026, 10, 12, 0, 0, 0, 0⟩ "h".toList) (Collector.secKey .ram) =
      some (Json.obj []) :=
  ⟨(c1_section_isolation []
      ⟨.error "boom".toList, .ok (Json.obj []), .ok (Json.obj []),
        fun _ => .ok (Json.obj []), .ok (Json.obj []), .ok (Json.obj []),
        .ok (Json.obj []), .ok (Json.obj []), .ok (Json.obj []),
        .ok (Json.obj []), .ok (Json.obj []), .ok (Json.obj [])⟩
      ⟨2026, 10, 12, 0, 0, 0, 0⟩ "h".toList .cpu "boom".toList rfl rfl).1,
   (c1_section_isolation []
      ⟨.error "boom".toList, .ok (Json.obj []), .ok (Json.obj []),
        fun _ => .ok (Json.obj []), .ok (Json.obj []), .ok (Json.obj []),
        .ok (Json.obj []), .ok (Json.obj []), .ok (Json.obj []),
        .ok (Json.obj []), .ok (Json.obj []), .ok (Json.obj [])⟩
      ⟨2026, 10, 12, 0, 0, 0, 0⟩ "h".toList .cpu "boom".toList rfl rfl).2
     .ram (by decide) rfl⟩

/-- C2 (cache write atomicity): the temporary path is the canonical
path plus `.tmp`, in the same directory; in every state a concurrent
reader can observe during write_cache, the canonical cache file holds
either the previous contents or the complete new serialization, never
the partial text being streamed into the temporary file; and if
serialization or the rename fails, every state of the write — its final
one included — leaves the canonical file unchanged. -/
theorem write_cache_trace_cases (fs0 : Collector.FState) (snap : Json)
    (phases : List Str) (serOk renameOk : Bool) (st : Collector.FState)
    (hst : st ∈ Collector.write_cache_trace fs0 snap phases serOk renameOk) :
    st = fs0 ∨ (∃ w, st = ⟨fs0.cacheF, some w⟩) ∨
      st = ⟨fs0.cacheF, some (dumpsJ snap)⟩ ∨
      (serOk = true ∧ renameOk = true ∧ st = ⟨some (dumpsJ snap), none⟩) := by
  unfold Collector.write_cache_trace at hst
  rcases List.mem_cons.mp hst with h | h
  · exact Or.inl h
  · rcases List.mem_append.mp h with h | h
    · rcases List.mem_map.mp h with ⟨w, _, hw⟩
      exact Or.inr (Or.inl ⟨w, hw.symm⟩)
    · cases serOk with
      | false => simp at h
      | true =>
        rw [if_pos rfl] at h
        rcases List.mem_cons.mp h with h | h
        · exact Or.inr (Or.inr (Or.inl h))
        · cases renameOk with
          | false => simp at h
          | true =>
            rw [if_pos rfl] at h
            exact Or.inr (Or.inr (Or.inr ⟨rfl, rfl, List.mem_singleton.mp h⟩))

theorem c2_cache_write_atomic :
    Collector.cacheTmpPath = Collector.CACHE_FILE ++ ".tmp".toList ∧
    Collector.dirOf Collector.cacheTmpPath = Collector.dirOf Collector.CACHE_FILE ∧
    (∀ (fs0 : Collector.FState) (snap : Json) (phases : List Str) (serOk renameOk : Bool),
      ∀ st ∈ Collector.write_cache_trace fs0 snap phases serOk renameOk,
        st.cacheF = fs0.cacheF ∨ st.cacheF = some (dumpsJ snap)) ∧
    (∀ (fs0 : Collector.FState) (snap : Json) (phases : List Str) (serOk renameOk : Bool),
      (serOk && renameOk) = false →
      ∀ st ∈ Collector.write_cache_trace fs0 snap phases serOk renameOk,
        st.cacheF = fs0.cacheF) := by
  refine ⟨rfl, by decide, ?_, ?_⟩
  · intro fs0 snap phases serOk renameOk st hst
    rcases write_cache_trace_cases fs0 snap phases serOk renameOk st hst with
      h | ⟨w, h⟩ | h | ⟨-, -, h⟩ <;> subst h <;> simp
  · intro fs0 snap phases serOk renameOk hfail st hst
    rcases write_cache_trace_cases fs0 snap phases serOk renameOk st hst with
      h | ⟨w, h⟩ | h | ⟨h1, h2, h⟩
    · subst h; rfl
    · subst h; rfl
    · subst h; rfl
    · rw [h1, h2] at hfail
      exact absurd hfail (by simp)

/-- Witness for C2: a cache holding `old`, one partial phase `par`, a
fully successful write; the intermediate state with the partial text in
the temporary file still shows `old` at the canonical path, and a
failed rename leaves the final canonical contents at `old`. -/
theorem c2_cache_write_atomic_witness :
    ((⟨some "old".toList, some "par".toList⟩ : Collector.FState).cacheF =
        (⟨some "old".toList, none⟩ : Collector.FState).cacheF ∨
      (⟨some "old".toList, some "par".toList⟩ : Collector.FState).cacheF =
        some (dumpsJ Json.null)) ∧
    (⟨some "old".toList, some (dumpsJ Json.null)⟩ : Collector.FState).cacheF =
      (⟨some "old".toList, none⟩ : Collector.FState).cacheF :=
  ⟨c2_cache_write_atomic.2.2.1 ⟨some "old".toList, none⟩ Json.null ["par".toList]
      true true ⟨some "old".toList, some "par".toList⟩ (by decide),
   c2_cache_write_atomic.2.2.2 ⟨some "old".toList, none⟩ Json.null ["par".toList]
      true false rfl ⟨some "old".toList, some (dumpsJ Json.null)⟩ (by decide)⟩

theorem toNat_charOfNat (n : Nat) (h : n < 55296) : (Char.ofNat n).toNat = n := by
  unfold Char.ofNat
  rw [dif_pos (Or.inl h)]
  rfl

theorem titleStep_non_alpha (p : Bool) (c : Char) (h : Api.isAlphaC c = false) :
    Api.titleStep p c = c := by
  simp [Api.titleStep, h]

theorem isAlphaC_of_titleStep (p : Bool) (c : Char)
    (h : Api.isAlphaC (Api.titleStep p c) = true) : Api.isAlphaC c = true := by
  cases hc : Api.isAlphaC c with
  | true => rfl
  | false =>
    rw [titleStep_non_alpha p c hc] at h
    rw [hc] at h
    exact Bool.noConfusion h

/-- A letter placed after a letter by `str.title()` is never uppercase. -/
theorem titleStep_true_not_upper (c : Char) :
    Api.isUpperC (Api.titleStep true c) = false := by
  unfold Api.titleStep
  by_cases hc : Api.isAlphaC c = true
  · rw [if_pos hc, if_pos rfl]
    unfold Api.lowerChar
    by_cases hu : Api.isUpperC c = true
    · rw [if_pos hu]
      have hb : 65 ≤ c.toNat ∧ c.toNat ≤ 90 := by
        simpa [Api.isUpperC] using hu
      unfold Api.isUpperC
      rw [toNat_charOfNat _ (by omega)]
      simp only [Bool.and_eq_false_iff, decide_eq_false_iff_not]
      omega
    · rw [if_neg hu]
      simpa using hu
  · rw [if_neg hc]
    have h2 : Api.isUpperC c = false ∧ Api.isLowerC c = false := by
      simpa [Api.isAlphaC] using hc
    exact h2.1

/-- A letter placed at a word start by `str.title()` is never lowercase. -/
theorem titleStep_false_not_lower (c : Char) :
    Api.isLowerC (Api.titleStep false c) = false := by
  unfold Api.titleStep
  by_cases hc : Api.isAlphaC c = true
  · rw [if_pos hc, if_neg (by decide : ¬(false = true))]
    unfold Api.upperChar
    by_cases hl : Api.isLowerC c = true
    · rw [if_pos hl]
      have hb : 97 ≤ c.toNat ∧ c.toNat ≤ 122 := by
        simpa [Api.isLowerC] using hl
      unfold Api.isLowerC
      rw [toNat_charOfNat _ (by omega)]
      simp only [Bool.and_eq_false_iff, decide_eq_false_iff_not]
      omega
    · rw [if_neg hl]
      simpa using hl
  · rw [if_neg hc]
    have h2 : Api.isUpperC c = false ∧ Api.isLowerC c = false := by
      simpa [Api.isAlphaC] using hc
    exact h2.2

/-- No `str.title()` output is the string `X-ATLAS-Key`: its `T` is an
uppercase letter directly after the letter `A`, which title-casing
never produces. -/
theorem titleChars_ne_xatlas (l : Str) :
    Api.titleChars false l ≠ "X-ATLAS-Key".toList := by
  intro h
  rw [show ("X-ATLAS-Key".toList : Str) =
    'X' :: '-' :: 'A' :: 'T' :: "LAS-Key".toList from rfl] at h
  rcases l with _ | ⟨c0, l0⟩
  · simp [Api.titleChars] at h
  rcases l0 with _ | ⟨c1, l1⟩
  · simp [Api.titleChars] at h
  rcases l1 with _ | ⟨c2, l2⟩
  · simp [Api.titleChars] at h
  rcases l2 with _ | ⟨c3, l3⟩
  · simp [Api.titleChars] at h
  simp only [Api.titleChars, List.cons.injEq] at h
  obtain ⟨-, -, h2, h3, -⟩ := h
  have ha2 : Api.isAlphaC c2 = true :=
    isAlphaC_of_titleStep _ c2 (by rw [h2]; decide)
  rw [ha2] at h3
  have hup := titleStep_true_not_upper c3
  rw [h3] at hup
  exact absurd hup (by decide)

/-- No `str.title()` output is the string `x-atlas-key`: its leading
`x` is a lowercase letter at a word start. -/
theorem titleChars_ne_lower_xatlas (l : Str) :
    Api.titleChars false l ≠ "x-atlas-key".toList := by
  intro h
  rw [show ("x-atlas-key".toList : Str) = 'x' :: "-atlas-key".toList from rfl] at h
  rcases l with _ | ⟨c0, l0⟩
  · simp [Api.titleChars] at h
  simp only [Api.titleChars, List.cons.injEq] at h
  obtain ⟨h0, -⟩ := h
  have hlo := titleStep_false_not_lower c0
  rw [h0] at hlo
  exact absurd hlo (by decide)

theorem flaskHeaderName_ne_xatlas (name : Str) :
    Api.flaskHeaderName name ≠ "X-ATLAS-Key".toList :=
  titleChars_ne_xatlas _

theorem flaskHeaderName_ne_lower_xatlas (name : Str) :
    Api.flaskHeaderName name ≠ "x-atlas-key".toList :=
  titleChars_ne_lower_xatlas _

theorem sLookup_flaskHeaders_eq_none (hs : List (Str × Str)) (target : Str)
    (hne : ∀ name : Str, Api.flaskHeaderName name ≠ target) :
    sLookup (Api.flaskHeaders hs) target = none := by
  induction hs with
  | nil => rfl
  | cons kv rest ih =>
    obtain ⟨n, v⟩ := kv
    show sLookup ((Api.flaskHeaderName n, v) :: Api.flaskHeaders rest) target = none
    unfold sLookup
    rw [if_neg (hne n)]
    exact ih

/-- The key the flask engine works with is exactly the `key` query
parameter (or empty): the two exact-case header lookups can never hit a
Werkzeug title-cased name, whatever headers the client sends. -/
theorem flask_presented_key (headers params : List (Str × Str)) :
    Api.get_key_from_request (Api.flaskHeaders headers) params =
      (sLookup params "key".toList).getD [] := by
  unfold Api.get_key_from_request
  rw [sLookup_flaskHeaders_eq_none headers _ flaskHeaderName_ne_xatlas,
    sLookup_flaskHeaders_eq_none headers _ flaskHeaderName_ne_lower_xatlas]
  rfl

/-- When the key check passes, the http engine never emits 401. -/
theorem httpDoGet_ne_401_of_auth (cfg : Dict) (env : Api.Env) (req : Api.Req)
    (hck : Api.check_key
      (Api.get_key_from_request req.headers (Api.httpParams req.params)) cfg = true) :
    (Api.httpDoGet cfg env req).1 ≠ 401 := by
  simp only [Api.httpDoGet]
  split_ifs with h1 h2 h3 h4 h5
  · simp [Api.make_ping_response]
  · rw [hck] at h2
    exact absurd h2 (by decide)
  · rcases make_stats_status env none with h | h | h <;> omega
  · rcases make_stats_status env (some ((Api.rstripSlash req.path).drop 11)) with h | h | h <;> omega
  · rcases make_history_status env (Api.limitOf (Api.httpParams req.params)) with h | h | h <;> omega
  · simp [Api.notFoundBody]

/-- When the key check passes, the flask engine never emits 401. -/
theorem flaskHandle_ne_401_of_auth (cfg : Dict) (env : Api.Env) (req : Api.Req)
    (hck : Api.check_key
      (Api.get_key_from_request (Api.flaskHeaders req.headers) req.params) cfg = true) :
    (Api.flaskHandle cfg env req).1 ≠ 401 := by
  simp only [Api.flaskHandle, hck, if_true]
  split_ifs with h1 h2 h3
  · simp [Api.make_ping_response]
  · rcases make_stats_status env none with h | h | h <;> omega
  · rcases make_history_status env (Api.limitOf req.params) with h | h | h <;> omega
  · rcases hm : Api.secMatch req.path with _ | s
    · simp [hm, Api.notFoundBody]
    · simp only [hm]
      rcases make_stats_status env (some s) with h | h | h <;> omega

/-- No path of the form `/api/stats/<s>` equals a string whose
`listStartsWith "/api/stats/"` test fails. -/
theorem statsPre_ne (s t : Str)
    (ht : Api.listStartsWith "/api/stats/".toList t = false) :
    ¬("/api/stats/".toList ++ s = t) := by
  intro h
  have hsw := listStartsWith_append "/api/stats/".toList s
  rw [h, ht] at hsw
  exact Bool.noConfusion hsw

/-- C3 amended (auth asymmetry between the engines): with an empty
configured key neither engine ever answers 401, and ping needs no key
on either engine. The flask engine reads its presented key from the
Werkzeug title-cased header map, in which the exact-case
`X-ATLAS-Key`/`x-atlas-key` lookups can never hit, so its presented
key is exactly the `key` query parameter. With a nonempty configured
key, the http engine answers exactly the unauthorized 401 on every
non-ping path whenever its presented key (headers as sent, else the
first non-blank `key` query value) differs from the configured key,
while the flask engine does so on every defined non-ping endpoint
whenever the `key` query value differs — so a wrong header key beside
a correct query key is rejected by http but authorized by flask (see
the counterexample). -/
theorem c3_auth_symmetry (cfg : Dict) (env : Api.Env) (req : Api.Req) :
    ((jLookup cfg "api_key".toList).getD (Json.str []) = Json.str [] →
      (Api.httpDoGet cfg env req).1 ≠ 401 ∧ (Api.flaskHandle cfg env req).1 ≠ 401) ∧
    Api.get_key_from_request (Api.flaskHeaders req.headers) req.params =
      (sLookup req.params "key".toList).getD [] ∧
    (∀ k : Str, jLookup cfg "api_key".toList = some (Json.str k) → k ≠ [] →
      ((Api.get_key_from_request req.headers (Api.httpParams req.params) ≠ k →
          Api.rstripSlash req.path ≠ "/api/ping".toList →
          Api.httpDoGet cfg env req = Api.unauthorizedResp) ∧
       ((sLookup req.params "key".toList).getD [] ≠ k →
          req.path = "/api/stats".toList ∨ req.path = "/api/history".toList ∨
            (∃ s, s ≠ [] ∧ Api.noSlash s = true ∧
              req.path = "/api/stats/".toList ++ s) →
          Api.flaskHandle cfg env req = Api.unauthorizedResp))) ∧
    (Api.rstripSlash req.path = "/api/ping".toList →
      Api.httpDoGet cfg env req = Api.make_ping_response env ∧
      (Api.httpDoGet cfg env req).1 = 200) ∧
    (req.path = "/api/ping".toList →
      Api.flaskHandle cfg env req = Api.make_ping_response env) := by
  refine ⟨?_, flask_presented_key req.headers req.params, ?_, ?_, ?_⟩
  · intro hk
    exact ⟨httpDoGet_ne_401_of_auth cfg env req (check_key_empty cfg hk _),
      flaskHandle_ne_401_of_auth cfg env req (check_key_empty cfg hk _)⟩
  · intro k hk hkne
    constructor
    · intro hbad hping
      have hck : Api.check_key
          (Api.get_key_from_request req.headers (Api.httpParams req.params)) cfg = false := by
        rw [check_key_configured cfg k hk hkne]
        exact decide_eq_false hbad
      simp only [Api.httpDoGet]
      rw [if_neg hping, if_pos hck]
    · intro hbad hroute
      have hck : Api.check_key
          (Api.get_key_from_request (Api.flaskHeaders req.headers) req.params) cfg = false := by
        rw [check_key_configured cfg k hk hkne, flask_presented_key]
        exact decide_eq_false hbad
      rcases hroute with h | h | ⟨s, hne, hns, h⟩
      · simp only [Api.flaskHandle, hck, h]
        simp
      · simp only [Api.flaskHandle, hck, h]
        simp
      · have hsec : Api.secMatch req.path = some s := by
          unfold Api.secMatch
          rw [h, stripPre_append]
          simp [List.isEmpty_iff, hne, hns]
        rw [h] at hsec
        simp only [Api.flaskHandle, hck, h]
        rw [if_neg (statsPre_ne s _ (by decide)), if_neg (statsPre_ne s _ (by decide)),
          if_neg (statsPre_ne s _ (by decide))]
        simp only [hsec]
        simp
  · intro hping
    constructor
    · simp only [Api.httpDoGet]
      rw [if_pos hping]
    · simp only [Api.httpDoGet]
      rw [if_pos hping]
      rfl
  · intro hping
    simp only [Api.flaskHandle]
    rw [if_pos hping]

/-- Counterexample to C3 as stated: with key `k` configured, a request
to `/api/stats` presenting the wrong key `wrong` via the X-ATLAS-Key
header (beside the correct key in the query) is *authorized* by the
flask engine — 200, not the unauthorized condition — because Werkzeug
re-cases the header name to X-Atlas-Key and the exact-case lookups
miss it; the http engine rejects the very same request with 401. -/
theorem c3_header_key_counterexample :
    Api.flaskHandle [("api_key".toList, Json.str "k".toList)]
        ⟨true, some [], [], false, .ok []⟩
        ⟨"/api/stats".toList, [("key".toList, "k".toList)],
          [("X-ATLAS-Key".toList, "wrong".toList)]⟩ = (200, Json.obj []) ∧
    (Api.flaskHandle [("api_key".toList, Json.str "k".toList)]
        ⟨true, some [], [], false, .ok []⟩
        ⟨"/api/stats".toList, [("key".toList, "k".toList)],
          [("X-ATLAS-Key".toList, "wrong".toList)]⟩).1 ≠ 401 ∧
    Api.httpDoGet [("api_key".toList, Json.str "k".toList)]
        ⟨true, some [], [], false, .ok []⟩
        ⟨"/api/stats".toList, [("key".toList, "k".toList)],
          [("X-ATLAS-Key".toList, "wrong".toList)]⟩ = Api.unauthorizedResp :=
  ⟨rfl, by decide, rfl⟩

/-- Witness for the amended C3: with key `k` configured and no key
presented at all, `/api/stats` is rejected identically by both
engines, and with no key configured a stats request is not a 401. -/
theorem c3_auth_symmetry_witness :
    Api.httpDoGet [("api_key".toList, Json.str "k".toList)]
        ⟨false, none, [], false, .ok []⟩ ⟨"/api/stats".toList, [], []⟩ =
      Api.unauthorizedResp ∧
    Api.flaskHandle [("api_key".toList, Json.str "k".toList)]
        ⟨false, none, [], false, .ok []⟩ ⟨"/api/stats".toList, [], []⟩ =
      Api.unauthorizedResp ∧
    (Api.httpDoGet [] ⟨false, none, [], false, .ok []⟩
        ⟨"/api/stats".toList, [], []⟩).1 ≠ 401 :=
  ⟨((c3_auth_symmetry [("api_key".toList, Json.str "k".toList)]
        ⟨false, none, [], false, .ok []⟩ ⟨"/api/stats".toList, [], []⟩).2.2.1
      "k".toList rfl (by decide)).1 (by decide) (by decide),
   ((c3_auth_symmetry [("api_key".toList, Json.str "k".toList)]
        ⟨false, none, [], false, .ok []⟩ ⟨"/api/stats".toList, [], []⟩).2.2.1
      "k".toList rfl (by decide)).2 (by decide) (Or.inl rfl),
   ((c3_auth_symmetry [] ⟨false, none, [], false, .ok []⟩
        ⟨"/api/stats".toList, [], []⟩).1 rfl).1⟩

/-- C4 amended (transport engine equivalence, restricted): the http and
flask engines return the same status code and JSON body for every
request to a defined endpoint path — `/api/ping`, `/api/stats`,
`/api/history`, or `/api/stats/<section>` with a nonempty slash-free
section and no trailing slash — *provided* the request carries no
`X-ATLAS-Key`/`x-atlas-key` header and no blank query values, the two
places where the engines read the request differently. Outside these
conditions they diverge three ways (see the counterexample): unknown
paths (http 401 before routing vs flask 404), header-presented keys
(visible to http, hidden from flask by Werkzeug title-casing), and
blank `limit` values (dropped by parse_qs on http, kept by flask where
`int("")` raises). -/
theorem c4_engines_agree_on_defined_routes (cfg : Dict) (env : Api.Env) (req : Api.Req)
    (hh1 : sLookup req.headers "X-ATLAS-Key".toList = none)
    (hh2 : sLookup req.headers "x-atlas-key".toList = none)
    (hblank : ∀ kv ∈ req.params, kv.2 ≠ [])
    (hroute : req.path = "/api/ping".toList ∨ req.path = "/api/stats".toList ∨
      req.path = "/api/history".toList ∨
      (∃ s, s ≠ [] ∧ Api.noSlash s = true ∧ req.path = "/api/stats/".toList ++ s)) :
    Api.httpDoGet cfg env req = Api.flaskHandle cfg env req := by
  have hparams : Api.httpParams req.params = req.params := by
    unfold Api.httpParams
    exact List.filter_eq_self.mpr
      (fun kv hkv => by simpa [List.isEmpty_iff] using hblank kv hkv)
  have hkeys : Api.get_key_from_request req.headers (Api.httpParams req.params) =
      Api.get_key_from_request (Api.flaskHeaders req.headers) req.params := by
    rw [flask_presented_key]
    unfold Api.get_key_from_request
    rw [hparams, hh1, hh2]
    rfl
  have hlim : Api.limitOf (Api.httpParams req.params) = Api.limitOf req.params := by
    rw [hparams]
  rcases hroute with h | h | h | ⟨s, hne, hns, h⟩
  · simp only [Api.httpDoGet, Api.flaskHandle, h]
    rw [show Api.rstripSlash "/api/ping".toList = "/api/ping".toList from by decide]
    simp
  · simp only [Api.httpDoGet, Api.flaskHandle, h, hkeys]
    rw [show Api.rstripSlash "/api/stats".toList = "/api/stats".toList from by decide]
    cases hau : Api.check_key
        (Api.get_key_from_request (Api.flaskHeaders req.headers) req.params) cfg <;>
      simp [hau]
  · simp only [Api.httpDoGet, Api.flaskHandle, h, hkeys, hlim]
    rw [show Api.rstripSlash "/api/history".toList = "/api/history".toList from by decide]
    cases hau : Api.check_key
        (Api.get_key_from_request (Api.flaskHeaders req.headers) req.params) cfg <;>
      simp [hau]
    exact fun hsw => absurd hsw (by decide)
  · have hr : Api.rstripSlash ("/api/stats/".toList ++ s) = "/api/stats/".toList ++ s :=
      rstripSlash_append _ s hne hns
    have hsec : Api.secMatch ("/api/stats/".toList ++ s) = some s := by
      unfold Api.secMatch
      rw [stripPre_append]
      simp [List.isEmpty_iff, hne, hns]
    have hdrop : ("/api/stats/".toList ++ s).drop 11 = s := by
      rw [show (11 : Nat) = ("/api/stats/".toList).length from rfl, List.drop_left]
    simp only [Api.httpDoGet, Api.flaskHandle, h, hr, hsec, hdrop, hkeys,
      listStartsWith_append]
    rw [if_neg (statsPre_ne s _ (by decide)), if_neg (statsPre_ne s _ (by decide)),
      if_neg (statsPre_ne s _ (by decide)), if_neg (statsPre_ne s _ (by decide)),
      if_neg (statsPre_ne s _ (by decide))]
    cases hau : Api.check_key
        (Api.get_key_from_request (Api.flaskHeaders req.headers) req.params) cfg <;>
      simp [hau]

/-- Counterexample to C4 as stated: three request-level divergences
between the engines. On the unknown path `/nope` with a key configured
and none presented, http answers 401 (auth before routing) while flask
answers 404 (routing first). A request presenting the configured key
via the documented X-ATLAS-Key header is authorized by http (200) but
rejected by flask (401), whose title-cased header map hides the
header from the exact-case lookups. And `GET /api/history?limit=`
with a blank value is 200 on http (parse_qs drops the blank pair, the
default 100 applies) but 500 on flask (request.args keeps the blank
and `int("")` raises inside the catch-all). -/
theorem c4_engine_divergence :
    (Api.httpDoGet [("api_key".toList, Json.str "k".toList)]
        ⟨false, none, [], false, .ok []⟩ ⟨"/nope".toList, [], []⟩).1 = 401 ∧
    (Api.flaskHandle [("api_key".toList, Json.str "k".toList)]
        ⟨false, none, [], false, .ok []⟩ ⟨"/nope".toList, [], []⟩).1 = 404 ∧
    (Api.httpDoGet [("api_key".toList, Json.str "k".toList)]
        ⟨true, some [], [], false, .ok []⟩
        ⟨"/api/stats".toList, [], [("X-ATLAS-Key".toList, "k".toList)]⟩).1 = 200 ∧
    (Api.flaskHandle [("api_key".toList, Json.str "k".toList)]
        ⟨true, some [], [], false, .ok []⟩
        ⟨"/api/stats".toList, [], [("X-ATLAS-Key".toList, "k".toList)]⟩).1 = 401 ∧
    (Api.httpDoGet [] ⟨false, none, [], true, .ok []⟩
        ⟨"/api/history".toList, [("limit".toList, [])], []⟩).1 = 200 ∧
    (Api.flaskHandle [] ⟨false, none, [], true, .ok []⟩
        ⟨"/api/history".toList, [("limit".toList, [])], []⟩).1 = 500 :=
  ⟨rfl, rfl, rfl, rfl, rfl, rfl⟩

/-- Witness for the amended C4 on the defined route `/api/stats`, with
no key headers and no blank query values. -/
theorem c4_engines_agree_witness :
    Api.httpDoGet [] ⟨false, none, [], false, .ok []⟩ ⟨"/api/stats".toList, [], []⟩ =
      Api.flaskHandle [] ⟨false, none, [], false, .ok []⟩ ⟨"/api/stats".toList, [], []⟩ :=
  c4_engines_agree_on_defined_routes [] ⟨false, none, [], false, .ok []⟩
    ⟨"/api/stats".toList, [], []⟩ rfl rfl (by simp) (Or.inr (Or.inl rfl))

/-- C5 amended (history limit behavior): with the store available, a
parsed limit n yields a 200 response built from `min n 1000`; for
n > 1000 at most 1000 records are returned; for n = 0 the result is the
empty sequence as a success; but for n < 0 the negative value reaches
SQLite `LIMIT`, which means *no* bound — every stored record is
returned (still a success, not an error), not an empty sequence. -/
theorem c5_history_limit_clamp (env : Api.Env) (s : Str) (n : Int)
    (rows : List Collector.HRow) (hdb : env.dbExists = true)
    (hp : Api.parseIntPy s = .ok n) (hr : env.dbRows = .ok rows) :
    Api.make_history_response env (.strV s) =
      (200, Json.obj [("count".toList,
          Json.num ((Api.sqlLimit (min n 1000) (Api.sortDesc rows)).length : ℚ)),
        ("limit".toList, Json.num ((min n 1000 : Int) : ℚ)),
        ("snapshots".toList,
          Json.arr ((Api.sqlLimit (min n 1000) (Api.sortDesc rows)).map Api.rowJson))]) ∧
    (1000 < n → (Api.sqlLimit (min n 1000) (Api.sortDesc rows)).length ≤ 1000) ∧
    (n = 0 → Api.sqlLimit (min n 1000) (Api.sortDesc rows) = []) ∧
    (n < 0 → (Api.sqlLimit (min n 1000) (Api.sortDesc rows)).length = rows.length) := by
  refine ⟨?_, ?_, ?_, ?_⟩
  · unfold Api.make_history_response
    simp only [hdb, Api.parseLimit, hp, hr]
    simp
  · intro hgt
    rw [min_eq_right (by omega : (1000 : Int) ≤ n)]
    unfold Api.sqlLimit
    rw [if_neg (by omega : ¬(1000 : Int) < 0), List.length_take]
    omega
  · intro h0
    subst h0
    unfold Api.sqlLimit
    rw [min_eq_left (by omega : (0 : Int) ≤ 1000), if_neg (by omega : ¬(0 : Int) < 0)]
    rfl
  · intro hlt
    rw [min_eq_left (by omega : n ≤ 1000)]
    unfold Api.sqlLimit
    rw [if_pos hlt]
    exact sortDesc_length rows

/-- Counterexample to C5 as stated: one stored row and requested limit
`-1` (which is ≤ 0) produce a 200 response whose snapshot list contains
that row — not an empty sequence. -/
theorem c5_negative_limit_counterexample :
    Api.make_history_response
        ⟨false, none, [], true,
          .ok [⟨"2026-01-01T00:00:00+00:00".toList, none, none, none, none, []⟩]⟩
        (.strV "-1".toList) =
      (200, Json.obj [("count".toList, Json.num ((1 : Nat) : ℚ)),
        ("limit".toList, Json.num ((-1 : Int) : ℚ)),
        ("snapshots".toList, Json.arr [Api.rowJson
          ⟨"2026-01-01T00:00:00+00:00".toList, none, none, none, none, []⟩])]) ∧
    [Api.rowJson ⟨"2026-01-01T00:00:00+00:00".toList, none, none, none, none, []⟩] ≠
      ([] : List Json) :=
  ⟨rfl, List.cons_ne_nil _ _⟩

/-- Witness for the amended C5 at limit 2000 over a one-row store. -/
theorem c5_history_limit_clamp_witness :
    (Api.sqlLimit (min 2000 1000) (Api.sortDesc
      [⟨"2026-01-01T00:00:00+00:00".toList, none, none, none, none, []⟩])).length ≤ 1000 :=
  (c5_history_limit_clamp
    ⟨false, none, [], true,
      .ok [⟨"2026-01-01T00:00:00+00:00".toList, none, none, none, none, []⟩]⟩
    "2000".toList 2000
    [⟨"2026-01-01T00:00:00+00:00".toList, none, none, none, none, []⟩]
    rfl rfl rfl).2.1 (by omega)

/-- C6 amended (retention at date granularity): every history append
inserts the new record and then deletes exactly those records whose
stored ISO-8601 `collected_at` compares lexicographically below the
SQLite `datetime(now, -keep_days days)` text. Because the stored
format separates date and time with `T` while the cutoff uses a space,
that comparison holds iff the UTC calendar *date* of the record is
strictly before the calendar date of the cutoff: a record before the
date is removed, a record dated on or after it is retained — so a
record older than keep_days days whose date equals the cutoff date
survives up to one extra day (see the counterexample), while any
record younger than the window always survives. -/
theorem c6_retention_date_granularity (rows : List Collector.HRow) (stats : Dict)
    (cutoff : DT) (ts : Str) (hts : Collector.tsOfSnap stats = some ts)
    (hc : validDT cutoff) :
    ∀ r ∈ rows ++ [Collector.newHRow stats ts], ∀ rdt, validDT rdt →
      r.collected_at = pyIso rdt →
      (r ∈ Collector.write_history rows stats cutoff ↔ dateLtB rdt cutoff = false) := by
  intro r hmem rdt hv hts2
  unfold Collector.write_history
  rw [hts, List.mem_filter]
  have hlex : lexLtB r.collected_at (sqliteDT cutoff) = dateLtB rdt cutoff := by
    rw [hts2]
    unfold pyIso sqliteDT
    exact lexLtB_stamp rdt cutoff hv hc _ _
  constructor
  · rintro ⟨-, hp⟩
    rw [hlex] at hp
    simpa using hp
  · intro hd
    refine ⟨hmem, ?_⟩
    rw [hlex, hd]
    rfl

/-- Counterexample to C6 as stated: with keep_days = 7, at an append at
2026-10-12 23:59:59 UTC (purge cutoff 2026-10-05 23:59:59, exactly
7 days = 604800 s earlier, as the third conjunct checks), a record
collected at 2026-10-05T00:00:00+00:00 — 691199 s old, i.e. 86399 s
*older* than the 7-day window — is retained, because its stored `T`
separator compares above the space in the cutoff text on the shared
date prefix. -/
theorem c6_retention_counterexample :
    (⟨"2026-10-05T00:00:00+00:00".toList, none, none, none, none, []⟩ : Collector.HRow) ∈
      Collector.write_history
        [⟨"2026-10-05T00:00:00+00:00".toList, none, none, none, none, []⟩]
        [("collected_at".toList, Json.str (pyIso ⟨2026, 10, 12, 23, 59, 59, 0⟩))]
        ⟨2026, 10, 5, 23, 59, 59, 0⟩ ∧
    "2026-10-05T00:00:00+00:00".toList = pyIso ⟨2026, 10, 5, 0, 0, 0, 0⟩ ∧
    toSec ⟨2026, 10, 12, 23, 59, 59, 0⟩ - toSec ⟨2026, 10, 5, 0, 0, 0, 0⟩ =
      7 * 86400 + 86399 ∧
    toSec ⟨2026, 10, 12, 23, 59, 59, 0⟩ - toSec ⟨2026, 10, 5, 23, 59, 59, 0⟩ = 7 * 86400 := by
  refine ⟨by decide, by decide, by decide, by decide⟩

/-- Witness for the amended C6: the freshly inserted record (same-day
timestamp, on the cutoff date) is retained by the purge. -/
theorem c6_retention_witness :
    Collector.newHRow [("collected_at".toList, Json.str (pyIso ⟨2026, 10, 12, 23, 59, 59, 0⟩))]
        (pyIso ⟨2026, 10, 12, 23, 59, 59, 0⟩) ∈
      Collector.write_history []
        [("collected_at".toList, Json.str (pyIso ⟨2026, 10, 12, 23, 59, 59, 0⟩))]
        ⟨2026, 10, 5, 23, 59, 59, 0⟩ :=
  ((c6_retention_date_granularity []
      [("collected_at".toList, Json.str (pyIso ⟨2026, 10, 12, 23, 59, 59, 0⟩))]
      ⟨2026, 10, 5, 23, 59, 59, 0⟩ (pyIso ⟨2026, 10, 12, 23, 59, 59, 0⟩) rfl (by decide))
    (Collector.newHRow
      [("collected_at".toList, Json.str (pyIso ⟨2026, 10, 12, 23, 59, 59, 0⟩))]
      (pyIso ⟨2026, 10, 12, 23, 59, 59, 0⟩))
    (by simp) ⟨2026, 10, 12, 23, 59, 59, 0⟩ (by decide) rfl).mpr (by decide)

/-- C7 (section query conditions): with a cached snapshot present,
querying a name that is not a key of the snapshot yields 404 with an
`available` list that is exactly the keys of the snapshot minus the three
metadata fields, in snapshot order; with the cache absent or
unparseable the response is the 503 cache-missing condition, distinct
from 404 and from the 401 unauthorized condition. -/
theorem c7_section_conditions (env : Api.Env) (data : Dict) (s : Str) :
    (env.cache = some data → jLookup data s = none →
      Api.make_stats_response env (some s) =
        (404, Json.obj [("error".toList,
            Json.str ("Section \x27".toList ++ s ++ "\x27 not found".toList)),
          ("available".toList,
            Json.arr (((keysOf data).filter (fun k => !(Api.isMetaKey k))).map Json.str))])) ∧
    (env.cache = none →
      Api.make_stats_response env (some s) = Api.cacheMissingResp ∧
      (Api.make_stats_response env (some s)).1 = 503 ∧
      (Api.make_stats_response env (some s)).1 ≠ 404 ∧
      (Api.make_stats_response env (some s)).1 ≠ (Api.unauthorizedResp).1) := by
  constructor
  · intro hc hn
    unfold Api.make_stats_response
    rw [hc]
    simp [hn]
  · intro hc
    unfold Api.make_stats_response
    rw [hc]
    exact ⟨rfl, rfl, by show (503 : Nat) ≠ 404; decide, by show (503 : Nat) ≠ 401; decide⟩

/-- Witness for C7: a snapshot holding only cpu, queried for network. -/
theorem c7_section_conditions_witness :
    Api.make_stats_response
        ⟨true, some [("atlas_version".toList, Json.str "2.1.0".toList),
          ("cpu".toList, Json.obj [])], [], false, .ok []⟩ (some "network".toList) =
      (404, Json.obj [("error".toList,
          Json.str ("Section \x27".toList ++ "network".toList ++ "\x27 not found".toList)),
        ("available".toList, Json.arr [Json.str "cpu".toList])]) ∧
    Api.make_stats_response ⟨false, none, [], false, .ok []⟩ (some "network".toList) =
      Api.cacheMissingResp :=
  ⟨(c7_section_conditions
      ⟨true, some [("atlas_version".toList, Json.str "2.1.0".toList),
        ("cpu".toList, Json.obj [])], [], false, .ok []⟩
      [("atlas_version".toList, Json.str "2.1.0".toList), ("cpu".toList, Json.obj [])]
      "network".toList).1 rfl rfl,
   ((c7_section_conditions ⟨false, none, [], false, .ok []⟩ [] "network".toList).2 rfl).1⟩

/-- C8 (ping noninterference): a ping request is answered 200 with
status, service, version, the current time string and the bare
existence bit of the cache file; the answer is the same under any two
configurations (in particular with and without an API key) and any two
environments agreeing on the clock and on cache-file existence — it
never depends on the contents of the cached snapshot (or the history
store). Holds on both engines. -/
theorem c8_ping_noninterference (cfg1 cfg2 : Dict) (env1 env2 : Api.Env) (req : Api.Req)
    (hce : env1.cacheExists = env2.cacheExists) (hnow : env1.nowStr = env2.nowStr) :
    (Api.rstripSlash req.path = "/api/ping".toList →
      Api.httpDoGet cfg1 env1 req = Api.httpDoGet cfg2 env2 req ∧
      Api.httpDoGet cfg1 env1 req = (200, Json.obj
        [("status".toList, Json.str "ok".toList),
         ("service".toList, Json.str "ATLAS".toList),
         ("version".toList, Json.str "2.1.0".toList),
         ("time".toList, Json.str env1.nowStr),
         ("cache".toList, Json.bool env1.cacheExists)])) ∧
    (req.path = "/api/ping".toList →
      Api.flaskHandle cfg1 env1 req = Api.flaskHandle cfg2 env2 req) := by
  constructor
  · intro hp
    have h1 : Api.httpDoGet cfg1 env1 req = Api.make_ping_response env1 := by
      simp only [Api.httpDoGet]
      rw [if_pos hp]
    have h2 : Api.httpDoGet cfg2 env2 req = Api.make_ping_response env2 := by
      simp only [Api.httpDoGet]
      rw [if_pos hp]
    have h3 : Api.make_ping_response env1 = Api.make_ping_response env2 := by
      unfold Api.make_ping_response
      rw [hce, hnow]
    exact ⟨by rw [h1, h2, h3], by rw [h1]; rfl⟩
  · intro hp
    simp only [Api.flaskHandle]
    rw [if_pos hp, if_pos hp]
    unfold Api.make_ping_response
    rw [hce, hnow]

/-- Witness for C8: one run with a key configured and a populated
cache, one with no key and no parseable cache — identical ping
responses. -/
theorem c8_ping_noninterference_witness :
    Api.httpDoGet [("api_key".toList, Json.str "k".toList)]
        ⟨true, some [("cpu".toList, Json.obj [])], "t".toList, false, .ok []⟩
        ⟨"/api/ping".toList, [], []⟩ =
      Api.httpDoGet [] ⟨true, none, "t".toList, false, .ok []⟩
        ⟨"/api/ping".toList, [], []⟩ :=
  ((c8_ping_noninterference [("api_key".toList, Json.str "k".toList)] []
      ⟨true, some [("cpu".toList, Json.obj [])], "t".toList, false, .ok []⟩
      ⟨true, none, "t".toList, false, .ok []⟩
      ⟨"/api/ping".toList, [], []⟩ rfl rfl).1 (by decide)).1

/-- C9 (configuration merge and fallback): loading a parsed override
keeps every override key with its override value (unknown keys
included), keeps every default whose key the override does not mention,
and a missing or unparseable config file yields exactly the defaults —
in both the collector and the API loader. -/
theorem c9_config_merge (user : Dict) (hu : (keysOf user).Nodup) (k : Str) :
    (∀ v, jLookup user k = some v →
      jLookup (Collector.load_config (.parsed user)) k = some v ∧
      jLookup (Api.load_config (.parsed user)) k = some v) ∧
    (jLookup user k = none →
      jLookup (Collector.load_config (.parsed user)) k =
        jLookup Collector.DEFAULT_CONFIG k ∧
      jLookup (Api.load_config (.parsed user)) k = jLookup Api.DEFAULT_CONFIG k) ∧
    Collector.load_config .missing = Collector.DEFAULT_CONFIG ∧
    Collector.load_config .invalid = Collector.DEFAULT_CONFIG ∧
    Api.load_config .missing = Api.DEFAULT_CONFIG ∧
    Api.load_config .invalid = Api.DEFAULT_CONFIG := by
  refine ⟨?_, ?_, rfl, rfl, rfl, rfl⟩
  · intro v hv
    constructor
    · show jLookup (dictUpdate Collector.DEFAULT_CONFIG user) k = some v
      rw [dictUpdate_lookup _ user k hu, hv]
      rfl
    · show jLookup (dictUpdate Api.DEFAULT_CONFIG user) k = some v
      rw [dictUpdate_lookup _ user k hu, hv]
      rfl
  · intro hv
    constructor
    · show jLookup (dictUpdate Collector.DEFAULT_CONFIG user) k =
        jLookup Collector.DEFAULT_CONFIG k
      rw [dictUpdate_lookup _ user k hu, hv]
      rfl
    · show jLookup (dictUpdate Api.DEFAULT_CONFIG user) k = jLookup Api.DEFAULT_CONFIG k
      rw [dictUpdate_lookup _ user k hu, hv]
      rfl

/-- Witness for C9: an override with an unknown key and an api_key;
the unknown key survives the merge and an untouched default remains. -/
theorem c9_config_merge_witness :
    jLookup (Collector.load_config (.parsed
        [("custom_key".toList, Json.num 1), ("api_key".toList, Json.str "k".toList)]))
      "custom_key".toList = some (Json.num 1) ∧
    jLookup (Collector.load_config (.parsed
        [("custom_key".toList, Json.num 1), ("api_key".toList, Json.str "k".toList)]))
      "interval".toList = jLookup Collector.DEFAULT_CONFIG "interval".toList :=
  ⟨((c9_config_merge
      [("custom_key".toList, Json.num 1), ("api_key".toList, Json.str "k".toList)]
      (by decide) "custom_key".toList).1 (Json.num 1) rfl).1,
   ((c9_config_merge
      [("custom_key".toList, Json.num 1), ("api_key".toList, Json.str "k".toList)]
      (by decide) "interval".toList).2.1 rfl).1⟩

/-- C10 (implicit history availability): the history endpoint reports
the 404 unavailable condition exactly when the database file is absent
— the history_enabled configuration flag plays no role (rewriting it in
the configuration does not change any http response, since the request
path consults the configuration only for the api_key); and with the
database file present, a limit that does not parse as an integer falls
into the catch-all and yields the 500 store-error response. -/
theorem c10_history_availability (env : Api.Env) (l : Api.LimitV) (cfg : Dict)
    (req : Api.Req) (v : Json) :
    ((Api.make_history_response env l).1 = 404 ↔ env.dbExists = false) ∧
    (∀ s e, env.dbExists = true → Api.parseIntPy s = .error e →
      Api.make_history_response env (.strV s) =
        (500, Json.obj [("error".toList, Json.str e)])) ∧
    Api.httpDoGet (dictSet cfg "history_enabled".toList v) env req =
      Api.httpDoGet cfg env req := by
  refine ⟨⟨?_, ?_⟩, ?_, ?_⟩
  · intro h
    cases henv : env.dbExists with
    | false => rfl
    | true =>
      exfalso
      unfold Api.make_history_response at h
      rw [henv] at h
      rcases hp : Api.parseLimit l with e | n
      · rw [hp] at h
        simp at h
      · rw [hp] at h
        rcases hr : env.dbRows with e | rows
        · rw [hr] at h
          simp at h
        · rw [hr] at h
          simp at h
  · intro henv
    unfold Api.make_history_response
    rw [henv]
    rfl
  · intro s e henv hp
    unfold Api.make_history_response
    rw [henv]
    simp only [Api.parseLimit, hp]
    simp
  · have hck : ∀ p, Api.check_key p (dictSet cfg "history_enabled".toList v) =
        Api.check_key p cfg := by
      intro p
      unfold Api.check_key
      rw [dictSet_lookup_other cfg "history_enabled".toList "api_key".toList v (by decide)]
    simp only [Api.httpDoGet, hck]

/-- Witness for C10: an absent database file answers 404 whatever the
limit; a present file with limit `abc` answers 500; and rewriting
history_enabled in the configuration leaves the response of a history
request unchanged. -/
theorem c10_history_availability_witness :
    (Api.make_history_response ⟨false, none, [], false, .ok []⟩ (.intV 100)).1 = 404 ∧
    Api.make_history_response ⟨false, none, [], true, .ok []⟩ (.strV "abc".toList) =
      (500, Json.obj [("error".toList,
        Json.str "invalid literal for int() with base 10".toList)]) ∧
    Api.httpDoGet (dictSet [] "history_enabled".toList (Json.bool false))
        ⟨false, none, [], true, .ok []⟩ ⟨"/api/history".toList, [], []⟩ =
      Api.httpDoGet [] ⟨false, none, [], true, .ok []⟩ ⟨"/api/history".toList, [], []⟩ :=
  ⟨(c10_history_availability ⟨false, none, [], false, .ok []⟩ (.intV 100) []
      ⟨"/api/history".toList, [], []⟩ Json.null).1.mpr rfl,
   (c10_history_availability ⟨false, none, [], true, .ok []⟩ (.intV 100) []
      ⟨"/api/history".toList, [], []⟩ Json.null).2.1 "abc".toList
      "invalid literal for int() with base 10".toList rfl rfl,
   (c10_history_availability ⟨false, none, [], true, .ok []⟩ (.intV 100) []
      ⟨"/api/history".toList, [], []⟩ (Json.bool false)).2.2⟩
